import Mathlib

/-!
Shallow embedding of the offline synchronization engine of the
edgemed-agent repository: the encrypted durable queue
(`src/local/services/queue_manager.py`), the AEAD crypto provider
(`src/local/services/tink_crypto.py`), the sync worker's batch assembly
(`src/local/services/sync_worker.py`), and the record validator and
repair loop (`src/shared/validator.py`, `src/shared/constants.py`).

Conventions of the embedding:
* SQLite timestamps (`datetime('now')`) are modelled as `Nat` ticks
  passed explicitly to each operation.
* The random token inside an idempotency key (`uuid.uuid4()`) is passed
  explicitly to `enqueue`.
* Python floats in the completeness computation are modelled as exact
  rationals (`ℚ`); the score values are multiples of `1/3000`, so no
  value lies on a rounding tie and the exact-rational model agrees with
  the float computation.
-/

namespace EdgeMed

/-! ### Crypto provider -/

/-- Modelled from the spec: `TinkAEAD` (src/local/services/tink_crypto.py)
delegates encryption to the external `tink` library's AES128_GCM AEAD
primitive, whose code is not part of this repository.  The primitive is
modelled from the spec's AEAD contract (§4.1, §8): a ciphertext carries
its plaintext and the associated data it was encrypted under, and
decryption succeeds exactly when the associated data presented matches
the one used at encryption time.  The plaintext type is a parameter; the
JSON serialize/deserialize pair around the queue payload
(`json.dumps`/`json.loads`) is folded into it as the identity. -/
structure Cipher (α : Type) where
  data : α
  aad : List Nat
  deriving DecidableEq, Repr

/-- `TinkAEAD.encrypt` (tink_crypto.py line 59). -/
def encrypt {α : Type} (plaintext : α) (associated_data : List Nat) : Cipher α :=
  ⟨plaintext, associated_data⟩

/-- `TinkAEAD.decrypt` (tink_crypto.py line 62): fails (raises, modelled
as `none`) when the associated data does not match. -/
def decrypt {α : Type} (ciphertext : Cipher α) (associated_data : List Nat) : Option α :=
  if ciphertext.aad = associated_data then some ciphertext.data else none

/-- UTF-8 encoding of a string, as `note_id.encode("utf-8")`. -/
def utf8Bytes (s : String) : List Nat :=
  (s.data.map String.utf8EncodeChar).flatten.map (fun b => b.toNat)

/-! ### Queue payload

The payload dict enqueued by `local_save` (src/local/local_api.py lines
108-113): a record, flags, and optionally the raw note text.  The
`record` and `flags` JSON sub-objects are opaque to the queue and the
sync worker (passed through verbatim), so they are modelled as opaque
strings. -/

structure Payload where
  record : String
  flags : String
  raw_note_text : Option String
  deriving DecidableEq, Repr

/-! ### Durable queue store (`QueueManager`, src/local/services/queue_manager.py) -/

inductive Status where
  | queued
  | syncing
  | synced
  | failed
  deriving DecidableEq, Repr

/-- One row of the `queue_items` table.

Modelled from the spec: the table schema (`src/local/db/schema.sql`,
read at import time by queue_manager.py line 21) is not present in the
source tree.  Per the spec (§3, §4.2) the table is keyed by `note_id`
("inserts or replaces the row keyed by note_id"), and a fresh row resets
retry bookkeeping, so `retry_count` defaults to 0 and `fail_reason` to
NULL on insert. -/
structure Row where
  idempotency_key : String
  mode : String
  ciphertext : Cipher Payload
  status : Status
  fail_reason : Option String
  retry_count : Nat
  created_at : Nat
  updated_at : Nat
  deriving DecidableEq, Repr

/-- The `queue_items` table: an association of `note_id` to row.  The
`note_id` PRIMARY KEY constraint (modelled from the spec, see `Row`)
makes at most one row per `note_id` in reachable states; the operations
are nevertheless defined on arbitrary lists, mirroring SQL `UPDATE ...
WHERE note_id=?` which touches every matching row. -/
def QueueState := List (String × Row)

instance : DecidableEq QueueState := by
  unfold QueueState; infer_instance

/-- Row currently stored under `note_id` (first match). -/
def lookupRow (note_id : String) (st : QueueState) : Option Row :=
  (st.find? (fun p => p.1 = note_id)).map (fun p => p.2)

/-- Status of the row stored under `note_id`. -/
def statusOf (note_id : String) (st : QueueState) : Option Status :=
  (lookupRow note_id st).map (fun r => r.status)

/-- Number of rows stored under `note_id`. -/
def countRows (note_id : String) (st : QueueState) : Nat :=
  (st.filter (fun p => p.1 = note_id)).length

/-- `UPDATE queue_items SET ... WHERE note_id=?`: applies `f` to every
row whose key is `note_id`; a `note_id` matching no row changes
nothing and raises nothing. -/
def updateRow (note_id : String) (f : Row → Row) (st : QueueState) : QueueState :=
  st.map (fun p => if p.1 = note_id then (p.1, f p.2) else p)

/-- `QueueManager.enqueue` (queue_manager.py lines 50-72): builds the
idempotency key `f"{DEVICE_ID}:{note_id}:{uuid4}"`, encrypts the payload
with the note_id bytes as associated data, and `INSERT OR REPLACE`s the
row keyed by `note_id` with status `queued`.  Returns the key and the
new state. -/
def enqueue (device_id note_id : String) (payload : Payload) (mode : String)
    (token : String) (now : Nat) (st : QueueState) : String × QueueState :=
  let idempotency_key := device_id ++ ":" ++ note_id ++ ":" ++ token
  let ciphertext := encrypt payload (utf8Bytes note_id)
  let row : Row :=
    { idempotency_key := idempotency_key
      mode := mode
      ciphertext := ciphertext
      status := Status.queued
      fail_reason := none
      retry_count := 0
      created_at := now
      updated_at := now }
  (idempotency_key, st.filter (fun p => ¬ p.1 = note_id) ++ [(note_id, row)])

/-- `QueueManager.decrypt_payload` (queue_manager.py lines 88-91): the
associated data is always the `note_id` UTF-8 bytes. -/
def decrypt_payload (note_id : String) (ciphertext : Cipher Payload) : Option Payload :=
  decrypt ciphertext (utf8Bytes note_id)

/-- `QueueManager.mark_syncing` (lines 93-99): unconditional status
update of the row keyed by `note_id`. -/
def mark_syncing (note_id : String) (now : Nat) (st : QueueState) : QueueState :=
  updateRow note_id (fun r => { r with status := Status.syncing, updated_at := now }) st

/-- `QueueManager.mark_synced` (lines 101-107). -/
def mark_synced (note_id : String) (now : Nat) (st : QueueState) : QueueState :=
  updateRow note_id (fun r => { r with status := Status.synced, updated_at := now }) st

/-- `QueueManager.mark_failed` (lines 109-119): sets status `failed`,
records the reason and increments `retry_count` in the same update. -/
def mark_failed (note_id : String) (reason : String) (now : Nat) (st : QueueState) : QueueState :=
  updateRow note_id
    (fun r => { r with status := Status.failed, fail_reason := some reason,
                       retry_count := r.retry_count + 1, updated_at := now }) st

/-- `QueueManager.reset_for_retry` (lines 121-128): sets status `queued`,
leaving `retry_count` untouched. -/
def reset_for_retry (note_id : String) (now : Nat) (st : QueueState) : QueueState :=
  updateRow note_id (fun r => { r with status := Status.queued, updated_at := now }) st

/-! ### Basic lemmas about the store -/

theorem lookupRow_updateRow_self (note_id : String) (f : Row → Row) (st : QueueState) :
    lookupRow note_id (updateRow note_id f st) = (lookupRow note_id st).map f := by
  induction st with
  | nil => rfl
  | cons p t ih =>
    by_cases h : p.1 = note_id
    · simp [lookupRow, updateRow, List.find?, h]
    · simpa [lookupRow, updateRow, List.find?, h] using ih

theorem updateRow_absent (note_id : String) (f : Row → Row) (st : QueueState)
    (h : lookupRow note_id st = none) : updateRow note_id f st = st := by
  induction st with
  | nil => rfl
  | cons p t ih =>
    by_cases hp : p.1 = note_id
    · exfalso
      simp [lookupRow, List.find?, hp] at h
    · have ht : lookupRow note_id t = none := by
        simpa [lookupRow, List.find?, hp] using h
      show (if p.1 = note_id then (p.1, f p.2) else p) :: updateRow note_id f t = p :: t
      rw [if_neg hp, ih ht]

theorem find?_key_filter_append (note_id : String) (row : Row) (st : QueueState) :
    ((st.filter (fun p => ¬ p.1 = note_id)) ++ [(note_id, row)]).find?
        (fun p => p.1 = note_id) = some (note_id, row) := by
  induction st with
  | nil => simp [List.find?]
  | cons p t ih =>
    by_cases hp : p.1 = note_id
    · simpa [List.filter_cons, hp] using ih
    · simpa [List.filter_cons, List.find?_cons, hp] using ih

theorem filter_key_filter_append (note_id : String) (row : Row) (st : QueueState) :
    ((st.filter (fun p => ¬ p.1 = note_id)) ++ [(note_id, row)]).filter
        (fun p => p.1 = note_id) = [(note_id, row)] := by
  induction st with
  | nil => simp
  | cons p t ih =>
    by_cases hp : p.1 = note_id
    · simpa [List.filter_cons, hp] using ih
    · simpa [List.filter_cons, hp] using ih

theorem lookupRow_enqueue (device_id note_id : String) (payload : Payload)
    (mode token : String) (now : Nat) (st : QueueState) :
    lookupRow note_id (enqueue device_id note_id payload mode token now st).2 =
      some { idempotency_key := device_id ++ ":" ++ note_id ++ ":" ++ token
             mode := mode
             ciphertext := encrypt payload (utf8Bytes note_id)
             status := Status.queued
             fail_reason := none
             retry_count := 0
             created_at := now
             updated_at := now } := by
  simp [enqueue, lookupRow, find?_key_filter_append]

theorem countRows_enqueue (device_id note_id : String) (payload : Payload)
    (mode token : String) (now : Nat) (st : QueueState) :
    countRows note_id (enqueue device_id note_id payload mode token now st).2 = 1 := by
  simp [enqueue, countRows, filter_key_filter_append]

theorem string_append_left_cancel (a b c : String) (h : a ++ b = a ++ c) : b = c := by
  have hd := congrArg String.data h
  simp only [String.data_append] at hd
  exact String.ext (List.append_cancel_left hd)

/-- An example payload and queue state used by concrete witnesses. -/
def samplePayload : Payload := { record := "rec", flags := "flg", raw_note_text := none }

def sampleRow : Row :=
  { idempotency_key := "d:a:t", mode := "prod",
    ciphertext := encrypt samplePayload (utf8Bytes "a"), status := Status.queued,
    fail_reason := none, retry_count := 0, created_at := 0, updated_at := 0 }

/-! ### Claim theorems about the queue store -/

/-- C1 (counterexample): after `enqueue`, `mark_syncing`, `mark_synced`
the row for "n" is `synced`, yet a further `mark_syncing` call moves its
status to `syncing` — the claim that no subsequent `mark_syncing`,
`mark_failed` or `reset_for_retry` call changes a synced row's status is
false: the UPDATE statements carry no status guard. -/
theorem c1_synced_terminal_counterexample :
    statusOf "n" (mark_synced "n" 2 (mark_syncing "n" 1
        (enqueue "dev" "n" samplePayload "prod" "tok" 0 []).2)) = some Status.synced ∧
    statusOf "n" (mark_syncing "n" 3 (mark_synced "n" 2 (mark_syncing "n" 1
        (enqueue "dev" "n" samplePayload "prod" "tok" 0 []).2))) = some Status.syncing ∧
    Status.syncing ≠ Status.synced := by
  refine ⟨rfl, rfl, by decide⟩

/-- C1 (amended): the store's transition operations are unconditional.
Whenever a row exists for `note_id` — whatever its current status,
including `synced` — `mark_syncing` sets it to `syncing`, `mark_synced`
to `synced`, `mark_failed` to `failed` and `reset_for_retry` to
`queued`; and the path `enqueue` → `mark_syncing` → `mark_synced` does
yield status `synced`.  `synced` is terminal only under the Sync
Worker's calling discipline, not at the store level. -/
theorem c1_transitions_unconditional (note_id reason : String) (now : Nat)
    (st : QueueState) (r : Row) (h : lookupRow note_id st = some r) :
    statusOf note_id (mark_syncing note_id now st) = some Status.syncing ∧
    statusOf note_id (mark_synced note_id now st) = some Status.synced ∧
    statusOf note_id (mark_failed note_id reason now st) = some Status.failed ∧
    statusOf note_id (reset_for_retry note_id now st) = some Status.queued ∧
    (∀ (device_id mode token : String) (p : Payload) (n1 n2 n3 : Nat),
      statusOf note_id (mark_synced note_id n3 (mark_syncing note_id n2
        (enqueue device_id note_id p mode token n1 st).2)) = some Status.synced) := by
  refine ⟨?_, ?_, ?_, ?_, ?_⟩
  · simp [statusOf, mark_syncing, lookupRow_updateRow_self, h]
  · simp [statusOf, mark_synced, lookupRow_updateRow_self, h]
  · simp [statusOf, mark_failed, lookupRow_updateRow_self, h]
  · simp [statusOf, reset_for_retry, lookupRow_updateRow_self, h]
  · intro device_id mode token p n1 n2 n3
    simp [statusOf, mark_synced, mark_syncing, lookupRow_updateRow_self, lookupRow_enqueue]

theorem c1_transitions_unconditional_witness :
    lookupRow "a" [("a", sampleRow)] = some sampleRow ∧
    statusOf "a" (mark_syncing "a" 1 [("a", sampleRow)]) = some Status.syncing := by
  refine ⟨rfl, (c1_transitions_unconditional "a" "why" 1 [("a", sampleRow)] sampleRow rfl).1⟩

/-- C2: AEAD round trip — decrypting with the associated data used at
encryption returns the plaintext, decrypting under different associated
data fails; and in the queue store the associated data is always the
item's `note_id` UTF-8 bytes, both for the ciphertext stored by
`enqueue` and inside `decrypt_payload`. -/
theorem c2_aead_roundtrip_aad_binding
    (p : Payload) (aad aad1 aad2 : List Nat)
    (device_id note_id mode token : String) (now : Nat) (st : QueueState)
    (hne : aad1 ≠ aad2) :
    decrypt (encrypt p aad) aad = some p ∧
    decrypt (encrypt p aad1) aad2 = none ∧
    (lookupRow note_id (enqueue device_id note_id p mode token now st).2).map
        (fun r => r.ciphertext) = some (encrypt p (utf8Bytes note_id)) ∧
    (∀ c : Cipher Payload, decrypt_payload note_id c = decrypt c (utf8Bytes note_id)) := by
  refine ⟨by simp [decrypt, encrypt], by simp [decrypt, encrypt, hne], ?_, fun c => rfl⟩
  rw [lookupRow_enqueue]
  rfl

theorem c2_aead_roundtrip_aad_binding_witness :
    decrypt (encrypt samplePayload [0]) [0] = some samplePayload ∧
    decrypt (encrypt samplePayload [0]) [1] = none := by
  have h := c2_aead_roundtrip_aad_binding samplePayload [0] [0] [1]
    "d" "n" "prod" "t" 0 [] (by decide)
  exact ⟨h.1, h.2.1⟩

/-- C4: enqueuing the same `note_id` twice leaves exactly one row for
that `note_id`, holding the ciphertext of the most recent payload,
status `queued` and the idempotency key returned by the second call;
with distinct random tokens the two calls return distinct keys of the
form `device_id:note_id:token`. -/
theorem c4_enqueue_idempotent (device_id note_id mode : String)
    (p1 p2 : Payload) (t1 t2 : String) (n1 n2 : Nat) (st : QueueState)
    (hne : t1 ≠ t2) :
    countRows note_id (enqueue device_id note_id p2 mode t2 n2
        (enqueue device_id note_id p1 mode t1 n1 st).2).2 = 1 ∧
    lookupRow note_id (enqueue device_id note_id p2 mode t2 n2
        (enqueue device_id note_id p1 mode t1 n1 st).2).2 =
      some { idempotency_key :=
               (enqueue device_id note_id p2 mode t2 n2
                 (enqueue device_id note_id p1 mode t1 n1 st).2).1
             mode := mode
             ciphertext := encrypt p2 (utf8Bytes note_id)
             status := Status.queued
             fail_reason := none
             retry_count := 0
             created_at := n2
             updated_at := n2 } ∧
    (enqueue device_id note_id p2 mode t2 n2
        (enqueue device_id note_id p1 mode t1 n1 st).2).1 =
      device_id ++ ":" ++ note_id ++ ":" ++ t2 ∧
    (enqueue device_id note_id p1 mode t1 n1 st).1 ≠
      (enqueue device_id note_id p2 mode t2 n2
        (enqueue device_id note_id p1 mode t1 n1 st).2).1 := by
  refine ⟨countRows_enqueue _ _ _ _ _ _ _, lookupRow_enqueue _ _ _ _ _ _ _, rfl, ?_⟩
  intro hkey
  exact hne (string_append_left_cancel (device_id ++ ":" ++ note_id ++ ":") t1 t2 hkey)

theorem c4_enqueue_idempotent_witness :
    countRows "n" (enqueue "d" "n" samplePayload "prod" "t2" 2
        (enqueue "d" "n" samplePayload "prod" "t1" 1 []).2).2 = 1 ∧
    (enqueue "d" "n" samplePayload "prod" "t1" 1 []).1 ≠
      (enqueue "d" "n" samplePayload "prod" "t2" 2
        (enqueue "d" "n" samplePayload "prod" "t1" 1 []).2).1 := by
  have h := c4_enqueue_idempotent "d" "n" "prod" samplePayload samplePayload
    "t1" "t2" 1 2 [] (by decide)
  exact ⟨h.1, h.2.2.2⟩

/-- C10: calling `mark_syncing`, `mark_synced`, `mark_failed` or
`reset_for_retry` with a `note_id` for which no row exists leaves the
entire store unchanged (the operations are total functions: they return
normally and create no row). -/
theorem c10_transitions_noop_on_absent (note_id reason : String) (now : Nat)
    (st : QueueState) (h : lookupRow note_id st = none) :
    mark_syncing note_id now st = st ∧
    mark_synced note_id now st = st ∧
    mark_failed note_id reason now st = st ∧
    reset_for_retry note_id now st = st :=
  ⟨updateRow_absent _ _ _ h, updateRow_absent _ _ _ h,
   updateRow_absent _ _ _ h, updateRow_absent _ _ _ h⟩

theorem c10_transitions_noop_on_absent_witness :
    mark_syncing "b" 1 [("a", sampleRow)] = [("a", sampleRow)] ∧
    mark_failed "b" "why" 1 [("a", sampleRow)] = [("a", sampleRow)] := by
  have h := c10_transitions_noop_on_absent "b" "why" 1 [("a", sampleRow)] rfl
  exact ⟨h.1, h.2.2.1⟩

/-! ### Read operations: `get_pending` and `get_all_decrypted`

SQL `ORDER BY created_at` is modelled by an insertion sort on the
`created_at` tick (SQLite leaves the relative order of ties
unspecified). -/

def insertAsc (p : String × Row) : List (String × Row) → List (String × Row)
  | [] => [p]
  | q :: t => if p.2.created_at ≤ q.2.created_at then p :: q :: t else q :: insertAsc p t

/-- `ORDER BY created_at ASC` (queue_manager.py line 81). -/
def sortByCreatedAsc (l : List (String × Row)) : List (String × Row) :=
  l.foldr insertAsc []

def insertDesc (p : String × Row) : List (String × Row) → List (String × Row)
  | [] => [p]
  | q :: t => if q.2.created_at ≤ p.2.created_at then p :: q :: t else q :: insertDesc p t

/-- `ORDER BY created_at DESC` (queue_manager.py line 170). -/
def sortByCreatedDesc (l : List (String × Row)) : List (String × Row) :=
  l.foldr insertDesc []

theorem insertDesc_perm (p : String × Row) (l : List (String × Row)) :
    List.Perm (insertDesc p l) (p :: l) := by
  induction l with
  | nil => simp [insertDesc]
  | cons q t ih =>
    by_cases h : q.2.created_at ≤ p.2.created_at
    · simp [insertDesc, h]
    · simp only [insertDesc, if_neg h]
      exact (ih.cons q).trans (List.Perm.swap p q t)

theorem sortByCreatedDesc_perm (l : List (String × Row)) :
    List.Perm (sortByCreatedDesc l) l := by
  induction l with
  | nil => rfl
  | cons p t ih =>
    exact (insertDesc_perm p (sortByCreatedDesc t)).trans (ih.cons p)

/-- The projection of a row returned by `get_pending`'s SELECT
(queue_manager.py line 78). -/
structure PendingRow where
  note_id : String
  idempotency_key : String
  mode : String
  ciphertext : Cipher Payload
  retry_count : Nat
  created_at : Nat
  deriving DecidableEq, Repr

/-- `QueueManager.get_pending` (queue_manager.py lines 74-86): the
`queued` rows, oldest `created_at` first, up to `limit`. -/
def get_pending (st : QueueState) (limit : Nat) : List PendingRow :=
  ((sortByCreatedAsc (st.filter (fun p => p.2.status = Status.queued))).map
    (fun p => { note_id := p.1, idempotency_key := p.2.idempotency_key,
                mode := p.2.mode, ciphertext := p.2.ciphertext,
                retry_count := p.2.retry_count, created_at := p.2.created_at })).take limit

/-! ### Sync worker batch assembly (`SyncWorker.sync_batch`, src/local/services/sync_worker.py) -/

/-- `shared.schemas.SyncItem` (schemas.py lines 104-111); the `record`
and `flags` JSON sub-objects are opaque to the worker and modelled as
opaque strings, `created_at` as a tick. -/
structure SyncItem where
  note_id : String
  record : String
  flags : String
  created_at : Nat
  schema_version : String
  idempotency_key : String
  raw_note_text : Option String
  deriving DecidableEq, Repr

/-- The body of `sync_batch`'s per-row preparation (sync_worker.py lines
91-107): decrypt the payload, pop `raw_note_text`, null it whenever the
row's mode is `"demo"`, and assemble the outbound `SyncItem`; `none`
when decryption fails. -/
def buildItem (row : PendingRow) : Option SyncItem :=
  match decrypt_payload row.note_id row.ciphertext with
  | none => none
  | some payload =>
    let raw_text := payload.raw_note_text
    let raw_text := if row.mode = "demo" then none else raw_text
    some { note_id := row.note_id
           record := payload.record
           flags := payload.flags
           created_at := row.created_at
           schema_version := "1.0.0"
           idempotency_key := row.idempotency_key
           raw_note_text := raw_text }

/-- The `for row in pending` loop of `sync_batch` (sync_worker.py lines
89-110): marks each row `syncing`, assembles the outbound items and the
list of in-flight note_ids, and marks rows whose preparation raised
(decryption failure) as `failed`.  The Python failure reason `str(e)` is
modelled as a constant string. -/
def prepareBatch (now : Nat) : List PendingRow → QueueState → QueueState × List SyncItem × List String
  | [], st => (st, [], [])
  | row :: rest, st =>
    let st1 := mark_syncing row.note_id now st
    match buildItem row with
    | some item =>
      let res := prepareBatch now rest st1
      (res.1, item :: res.2.1, row.note_id :: res.2.2)
    | none =>
      prepareBatch now rest (mark_failed row.note_id "Decryption failed" now st1)

/-- The batch `sync_batch` assembles before submitting: `get_pending`
bounded by the batch size, then the preparation loop. -/
def sync_batch_prepare (st : QueueState) (batch_size now : Nat) :
    QueueState × List SyncItem × List String :=
  prepareBatch now (get_pending st batch_size) st

theorem prepareBatch_items (now : Nat) (rows : List PendingRow) (st : QueueState) :
    (prepareBatch now rows st).2.1 = rows.filterMap buildItem := by
  induction rows generalizing st with
  | nil => rfl
  | cons row rest ih =>
    cases hb : buildItem row with
    | none => simp [prepareBatch, hb, ih]
    | some item => simp [prepareBatch, hb, ih]

/-- C3: every outbound `SyncItem` that `sync_batch` builds from a
pending queue row whose `mode` is `"demo"` carries
`raw_note_text = none`, whatever the decrypted payload contained, and
that item is part of the assembled batch. -/
theorem c3_demo_mode_strips_raw_text (st : QueueState) (batch_size now : Nat)
    (row : PendingRow) (item : SyncItem)
    (hrow : row ∈ get_pending st batch_size)
    (hdemo : row.mode = "demo")
    (hbuild : buildItem row = some item) :
    item.raw_note_text = none ∧
    item ∈ (sync_batch_prepare st batch_size now).2.1 := by
  constructor
  · cases hdec : decrypt_payload row.note_id row.ciphertext with
    | none =>
      simp only [buildItem, hdec] at hbuild
      exact Option.noConfusion hbuild
    | some payload =>
      simp only [buildItem, hdec, hdemo, if_pos] at hbuild
      injection hbuild with hi
      rw [← hi]
  · rw [sync_batch_prepare, prepareBatch_items]
    exact List.mem_filterMap.mpr ⟨row, hrow, hbuild⟩

/-! ### Decrypt-for-display (`QueueManager.get_all_decrypted`, queue_manager.py lines 167-193) -/

/-- One element of the list `get_all_decrypted` returns: either the
plaintext metadata merged with the decrypted payload fields, or the
metadata with the error marker. -/
inductive DisplayEntry where
  | ok (note_id mode : String) (status : Status) (created_at : Nat)
      (record : String) (flags : String) (raw_note_text : Option String)
  | err (note_id mode : String) (status : Status) (created_at : Nat) (error : String)
  deriving DecidableEq, Repr

/-- The `try`/`except` body of `get_all_decrypted`'s loop
(queue_manager.py lines 174-192). -/
def entryOfRow (p : String × Row) : DisplayEntry :=
  match decrypt_payload p.1 p.2.ciphertext with
  | some payload =>
    DisplayEntry.ok p.1 p.2.mode p.2.status p.2.created_at
      payload.record payload.flags payload.raw_note_text
  | none =>
    DisplayEntry.err p.1 p.2.mode p.2.status p.2.created_at "Decryption failed"

/-- The accumulation loop of `get_all_decrypted` over the rows returned
by the SELECT (ordered by `created_at` DESC). -/
def displayLoop : List (String × Row) → List DisplayEntry
  | [] => []
  | p :: rest => entryOfRow p :: displayLoop rest

/-- `QueueManager.get_all_decrypted`: a pure read — it returns a result
list and leaves the queue state unchanged by construction (SELECT
only). -/
def get_all_decrypted (st : QueueState) : List DisplayEntry :=
  displayLoop (sortByCreatedDesc st)

theorem displayLoop_length (rows : List (String × Row)) :
    (displayLoop rows).length = rows.length := by
  induction rows with
  | nil => rfl
  | cons p rest ih => simp [displayLoop, ih]

theorem displayLoop_get (rows : List (String × Row)) (i : Nat)
    (h : i < (displayLoop rows).length) (h' : i < rows.length) :
    (displayLoop rows).get ⟨i, h⟩ = entryOfRow (rows.get ⟨i, h'⟩) := by
  induction rows generalizing i with
  | nil => cases h'
  | cons p rest ih =>
    cases i with
    | zero => rfl
    | succ j => exact ih j (by simpa [displayLoop_length] using h') (by simpa using h')

/-- C8: `get_all_decrypted` yields exactly one entry per stored row (the
rows it reports are a permutation of the store, reordered by
`created_at`), and the i-th entry depends only on the i-th row: the
decrypted payload fields alongside the plaintext metadata when
decryption succeeds, the `"Decryption failed"` marker otherwise — so a
decryption failure on one item never aborts the call or suppresses the
other items' results; the call itself is a pure read, leaving the state
unchanged. -/
theorem c8_decrypt_for_display_isolated (st : QueueState) (i : Nat)
    (h : i < (get_all_decrypted st).length) :
    (get_all_decrypted st).length = st.length ∧
    List.Perm (sortByCreatedDesc st) st ∧
    (∀ h' : i < (sortByCreatedDesc st).length,
      (get_all_decrypted st).get ⟨i, h⟩ =
        (match decrypt_payload ((sortByCreatedDesc st).get ⟨i, h'⟩).1
            ((sortByCreatedDesc st).get ⟨i, h'⟩).2.ciphertext with
         | some payload =>
           DisplayEntry.ok ((sortByCreatedDesc st).get ⟨i, h'⟩).1
             ((sortByCreatedDesc st).get ⟨i, h'⟩).2.mode
             ((sortByCreatedDesc st).get ⟨i, h'⟩).2.status
             ((sortByCreatedDesc st).get ⟨i, h'⟩).2.created_at
             payload.record payload.flags payload.raw_note_text
         | none =>
           DisplayEntry.err ((sortByCreatedDesc st).get ⟨i, h'⟩).1
             ((sortByCreatedDesc st).get ⟨i, h'⟩).2.mode
             ((sortByCreatedDesc st).get ⟨i, h'⟩).2.status
             ((sortByCreatedDesc st).get ⟨i, h'⟩).2.created_at
             "Decryption failed")) := by
  refine ⟨?_, sortByCreatedDesc_perm st, ?_⟩
  · unfold get_all_decrypted
    rw [displayLoop_length, (sortByCreatedDesc_perm st).length_eq]
  · intro h'
    have h2 : i < (displayLoop (sortByCreatedDesc st)).length := h
    calc (get_all_decrypted st).get ⟨i, h⟩
        = (displayLoop (sortByCreatedDesc st)).get ⟨i, h2⟩ := rfl
      _ = entryOfRow ((sortByCreatedDesc st).get ⟨i, h'⟩) := displayLoop_get _ _ _ h'
      _ = _ := rfl

/-! ### Concrete witnesses for the sync-worker and display claims -/

/-- Three items enqueued in demo mode, `raw_note_text` set on the third. -/
def demoState : QueueState :=
  (enqueue "d" "n3" { record := "r3", flags := "f3", raw_note_text := some "raw text" }
      "demo" "t3" 3
    (enqueue "d" "n2" { record := "r2", flags := "f2", raw_note_text := none } "demo" "t2" 2
      (enqueue "d" "n1" { record := "r1", flags := "f1", raw_note_text := none }
        "demo" "t1" 1 []).2).2).2

/-- The pending row for "n3" in `demoState`. -/
def demoRow : PendingRow :=
  { note_id := "n3", idempotency_key := "d:n3:t3", mode := "demo",
    ciphertext := encrypt { record := "r3", flags := "f3", raw_note_text := some "raw text" }
      (utf8Bytes "n3"),
    retry_count := 0, created_at := 3 }

/-- The outbound item built from `demoRow`: raw text stripped. -/
def demoItem : SyncItem :=
  { note_id := "n3", record := "r3", flags := "f3", created_at := 3,
    schema_version := "1.0.0", idempotency_key := "d:n3:t3", raw_note_text := none }

theorem c3_demo_mode_strips_raw_text_witness :
    demoItem.raw_note_text = none ∧
    demoItem ∈ (sync_batch_prepare demoState 10 4).2.1 :=
  c3_demo_mode_strips_raw_text demoState 10 4 demoRow demoItem
    (by decide) (by decide) (by decide)

/-- Two stored rows, the second one undecryptable (its associated data
does not match its `note_id`). -/
def displayState : QueueState :=
  [("good", { idempotency_key := "d:good:t", mode := "prod",
              ciphertext := encrypt samplePayload (utf8Bytes "good"),
              status := Status.queued, fail_reason := none, retry_count := 0,
              created_at := 1, updated_at := 1 }),
   ("bad", { idempotency_key := "d:bad:t", mode := "prod",
             ciphertext := encrypt samplePayload [0],
             status := Status.queued, fail_reason := none, retry_count := 0,
             created_at := 2, updated_at := 2 })]

theorem c8_decrypt_for_display_isolated_witness :
    (get_all_decrypted displayState).length = 2 ∧
    (get_all_decrypted displayState).get ⟨0, by decide⟩ =
      DisplayEntry.err "bad" "prod" Status.queued 2 "Decryption failed" ∧
    (get_all_decrypted displayState).get ⟨1, by decide⟩ =
      DisplayEntry.ok "good" "prod" Status.queued 1 "rec" "flg" none := by
  have h0 := c8_decrypt_for_display_isolated displayState 0 (by decide)
  have h1 := c8_decrypt_for_display_isolated displayState 1 (by decide)
  refine ⟨h0.1, ?_, ?_⟩
  · rw [h0.2.2 (by decide)]
    decide
  · rw [h1.2.2 (by decide)]
    decide

/-! ### Record validator (`src/shared/validator.py`, constants from `src/shared/constants.py`)

Python floats are modelled as exact rationals; every completeness score
is a multiple of `1/3000`, far from any rounding boundary, so the exact
model agrees with the float computation. -/

/-- `shared.schemas.Problem`. -/
structure Problem where
  description : String
  status : Option String := none
  icd10 : Option String := none
  confidence : Option String := none
  deriving DecidableEq, Repr

/-- `shared.schemas.Medication`. -/
structure Medication where
  name : String
  dose : Option String := none
  frequency : Option String := none
  route : Option String := none
  status : Option String := none
  deriving DecidableEq, Repr

/-- `shared.schemas.Allergy`. -/
structure Allergy where
  substance : String
  reaction : Option String := none
  severity : Option String := none
  deriving DecidableEq, Repr

/-- `shared.schemas.ClinicalRecord`. -/
structure ClinicalRecord where
  chief_complaint : Option String := none
  hpi : Option String := none
  assessment : List Problem := []
  plan : Option String := none
  medications : List Medication := []
  allergies : List Allergy := []
  red_flags : List String := []
  follow_up : Option String := none
  patient_summary_plain_language : Option String := none
  deriving DecidableEq, Repr

/-- `shared.schemas.Flags`; the completeness score as an exact rational. -/
structure Flags where
  missing_fields : List String := []
  contradictions : List String := []
  confidence_by_field : List (String × String) := []
  completeness_score : ℚ := 0
  deriving DecidableEq, Repr

/-- `shared.constants.REQUIRED_FIELDS`. -/
def REQUIRED_FIELDS : List String :=
  ["chief_complaint", "hpi", "assessment", "plan", "medications", "allergies"]

/-- `shared.constants.CRITICAL_FIELDS`. -/
def CRITICAL_FIELDS : List String := ["medications", "allergies", "assessment"]

/-- `shared.constants.CONFIDENCE_NUMERIC` as a lookup with the
dict's `.get(v, 0.33)` default. -/
def confidence_numeric : String → ℚ
  | "low" => 33/100
  | "medium" => 66/100
  | "high" => 1
  | _ => 33/100

/-- `shared.constants.MAX_REPAIR_ATTEMPTS`. -/
def MAX_REPAIR_ATTEMPTS : Nat := 2

/-- `shared.constants.COMPLETENESS_THRESHOLD`. -/
def COMPLETENESS_THRESHOLD : ℚ := 8/10

/-- The dynamic value `getattr(record, field, None)`: `None`, a string,
or one of the typed collections (pydantic guarantees each attribute
carries its declared type). -/
inductive FieldVal where
  | vnone
  | vstr (s : String)
  | vProblems (l : List Problem)
  | vMedications (l : List Medication)
  | vAllergies (l : List Allergy)
  | vStrList (l : List String)
  deriving DecidableEq, Repr

def optStr : Option String → FieldVal
  | some s => FieldVal.vstr s
  | none => FieldVal.vnone

/-- `getattr(record, field, None)` over the `ClinicalRecord` schema. -/
def getField (r : ClinicalRecord) : String → FieldVal
  | "chief_complaint" => optStr r.chief_complaint
  | "hpi" => optStr r.hpi
  | "assessment" => FieldVal.vProblems r.assessment
  | "plan" => optStr r.plan
  | "medications" => FieldVal.vMedications r.medications
  | "allergies" => FieldVal.vAllergies r.allergies
  | "red_flags" => FieldVal.vStrList r.red_flags
  | "follow_up" => optStr r.follow_up
  | "patient_summary_plain_language" => optStr r.patient_summary_plain_language
  | _ => FieldVal.vnone

/-- Python's `str.strip()`: drop leading and trailing whitespace. -/
def pyStrip (s : String) : String :=
  String.mk (((s.data.dropWhile Char.isWhitespace).reverse.dropWhile
    Char.isWhitespace).reverse)

/-- Python's `str.lower()` character-wise. -/
def pyLower (s : String) : String :=
  String.mk (s.data.map Char.toLower)

def pyWordsAux (cur : List Char) : List Char → List String
  | [] => if cur.isEmpty then [] else [String.mk cur.reverse]
  | c :: rest =>
    if c.isWhitespace then
      if cur.isEmpty then pyWordsAux [] rest
      else String.mk cur.reverse :: pyWordsAux [] rest
    else pyWordsAux (c :: cur) rest

/-- Python's `str.split()`: split on whitespace runs, no empty words. -/
def pyWords (s : String) : List String :=
  pyWordsAux [] s.data

def startsWithSeq : List Char → List Char → Bool
  | [], _ => true
  | _ :: _, [] => false
  | p :: ps, h :: hs => p = h && startsWithSeq ps hs

def hasSubSeq (pat : List Char) : List Char → Bool
  | [] => pat.isEmpty
  | c :: rest => startsWithSeq pat (c :: rest) || hasSubSeq pat rest

/-- Python's `pat in s` substring test. -/
def strContains (s pat : String) : Bool :=
  hasSubSeq pat.data s.data

/-- `_is_field_present` (validator.py lines 72-80): missing iff `None`,
an empty collection, or a blank string. -/
def is_field_present (record : ClinicalRecord) (field : String) : Bool :=
  match getField record field with
  | FieldVal.vnone => false
  | FieldVal.vstr s => !(pyStrip s == "")
  | FieldVal.vProblems l => !l.isEmpty
  | FieldVal.vMedications l => !l.isEmpty
  | FieldVal.vAllergies l => !l.isEmpty
  | FieldVal.vStrList l => !l.isEmpty

/-- `_chief_complaint_addressed` (validator.py lines 59-67): true when
the chief complaint is falsy, the assessment empty, or some assessment
entry shares a token with the chief complaint. -/
def chief_complaint_addressed (r : ClinicalRecord) : Bool :=
  match r.chief_complaint with
  | none => true
  | some cc =>
    if cc = "" || r.assessment.isEmpty then true
    else r.assessment.any (fun p =>
      (pyWords (pyLower cc)).any (fun w => (pyWords (pyLower p.description)).contains w))

/-- First contradiction rule (validator.py lines 40-44). -/
def nkdaRule (r : ClinicalRecord) : Bool :=
  r.allergies.any (fun a => strContains (pyLower a.substance) "nkda") && r.allergies.length > 1

/-- Second contradiction rule (validator.py lines 45-49). -/
def noneMedsRule (r : ClinicalRecord) : Bool :=
  r.medications.any (fun m => strContains (pyLower m.name) "none") && r.medications.length > 1

/-- Third contradiction rule (validator.py lines 50-55). -/
def ccNotAddressedRule (r : ClinicalRecord) : Bool :=
  r.chief_complaint.isSome && !r.assessment.isEmpty && !chief_complaint_addressed r

/-- `CONTRADICTION_RULES` (validator.py lines 39-56); the rules are
total functions here, so the `try`/`except` treating a raising rule as
non-matching has no effect to model. -/
def CONTRADICTION_RULES : List ((ClinicalRecord → Bool) × String) :=
  [(nkdaRule, "States NKDA (no known drug allergies) but also lists specific allergies"),
   (noneMedsRule, "States no medications but also lists specific medications"),
   (ccNotAddressedRule, "Chief complaint not addressed in assessment")]

/-- `_compute_confidence`'s per-field label (validator.py lines
110-129); the final `else "medium"` branch of the Python code (a
populated value that is neither a list nor a string) is unreachable for
schema-conformant records and kept on the `vnone` constructor. -/
def field_confidence (record : ClinicalRecord) (f : String) : String :=
  if !is_field_present record f then "low"
  else
    match getField record f with
    | FieldVal.vProblems l => if l.length ≥ 1 then "high" else "low"
    | FieldVal.vMedications l => if l.length ≥ 1 then "high" else "low"
    | FieldVal.vAllergies l => if l.length ≥ 1 then "high" else "low"
    | FieldVal.vStrList l => if l.length ≥ 1 then "high" else "low"
    | FieldVal.vstr s =>
      let word_count := (pyWords s).length
      if word_count ≥ 5 then "high"
      else if word_count ≥ 2 then "medium"
      else "low"
    | FieldVal.vnone => "medium"

/-- `_compute_completeness` (validator.py lines 132-151). -/
def compute_completeness (missing : List String) (confidence : List (String × String)) : ℚ :=
  let total_required : ℚ := REQUIRED_FIELDS.length
  let fields_present : ℚ := total_required - missing.length
  let missing_critical : ℚ := (CRITICAL_FIELDS.filter (fun f => missing.contains f)).length
  let total_critical : ℚ := CRITICAL_FIELDS.length
  let conf_values := confidence.map (fun p => confidence_numeric p.2)
  let avg_confidence : ℚ :=
    if conf_values.length = 0 then 0 else conf_values.sum / conf_values.length
  let score := 1/2 * (fields_present / total_required)
    + 3/10 * (1 - missing_critical / total_critical)
    + 1/5 * avg_confidence
  max 0 (min 1 score)

/-- Python's `round(x, 3)`: every score is a multiple of `1/3000`, never
half-way between two multiples of `1/1000`, so round-half-up here agrees
with the float banker's rounding. -/
def round3 (q : ℚ) : ℚ := (⌊q * 1000 + 1/2⌋ : ℚ) / 1000

/-- `validate` (validator.py lines 85-107). -/
def validate (record : ClinicalRecord) : Flags :=
  let missing := REQUIRED_FIELDS.filter (fun f => !is_field_present record f)
  let contradictions :=
    (CONTRADICTION_RULES.filter (fun rule => rule.1 record)).map (fun rule => rule.2)
  let confidence := REQUIRED_FIELDS.map (fun f => (f, field_confidence record f))
  let score := compute_completeness missing confidence
  { missing_fields := missing
    contradictions := contradictions
    confidence_by_field := confidence
    completeness_score := round3 score }

/-- A record with every field at its default. -/
def emptyRecord : ClinicalRecord := {}

theorem lookup_map_pair {β : Type} (l : List String) (g : String → β) (f : String)
    (hf : f ∈ l) : (l.map (fun x => (x, g x))).lookup f = some (g f) := by
  induction l with
  | nil => cases hf
  | cons a t ih =>
    by_cases h : f = a
    · subst h
      simp [List.lookup]
    · have hft : f ∈ t := by
        rcases List.mem_cons.mp hf with h' | h'
        · exact absurd h' h
        · exact h'
      have hba : (f == a) = false := beq_eq_false_iff_ne.mpr h
      simp [List.lookup, hba, ih hft]

/-- C9: the confidence map returned by `validate` is keyed by exactly
the six required fields in declaration order, `missing_fields` is a
sublist of the required fields in declaration order, and every missing
field is mapped to confidence `"low"`. -/
theorem c9_validator_flags_invariant (r : ClinicalRecord) :
    (validate r).confidence_by_field.map (fun p => p.1) = REQUIRED_FIELDS ∧
    (validate r).missing_fields.Sublist REQUIRED_FIELDS ∧
    ∀ f ∈ (validate r).missing_fields,
      (validate r).confidence_by_field.lookup f = some "low" := by
  refine ⟨?_, ?_, ?_⟩
  · simp [validate, Function.comp_def]
  · exact List.filter_sublist _
  · intro f hf
    have hmem : f ∈ REQUIRED_FIELDS ∧ (!is_field_present r f) = true :=
      List.mem_filter.mp hf
    have hconf : field_confidence r f = "low" := by
      unfold field_confidence
      rw [if_pos hmem.2]
    show (REQUIRED_FIELDS.map (fun g => (g, field_confidence r g))).lookup f = some "low"
    rw [lookup_map_pair REQUIRED_FIELDS _ f hmem.1, hconf]

theorem c9_validator_flags_invariant_witness :
    (validate emptyRecord).confidence_by_field.map (fun p => p.1) = REQUIRED_FIELDS ∧
    (validate emptyRecord).confidence_by_field.lookup "hpi" = some "low" := by
  have h := c9_validator_flags_invariant emptyRecord
  exact ⟨h.1, h.2.2 "hpi" (by decide)⟩

/-! ### C5: the completeness formula, restated from the spec's words -/

/-- Stated from the spec's words (§4.3): the number of required fields
present in the record. -/
def specPresentCount (r : ClinicalRecord) : Nat :=
  (REQUIRED_FIELDS.filter (fun f => is_field_present r f)).length

/-- Stated from the spec's words: the number of critical fields missing
from the record. -/
def specMissingCritical (r : ClinicalRecord) : Nat :=
  (CRITICAL_FIELDS.filter (fun f => !is_field_present r f)).length

/-- Stated from the spec's words: the sum of the per-required-field
numeric confidence values (low = 0.33, medium = 0.66, high = 1.0). -/
def specConfSum (r : ClinicalRecord) : ℚ :=
  (REQUIRED_FIELDS.map (fun f => confidence_numeric (field_confidence r f))).sum

def clamp01 (q : ℚ) : ℚ := max 0 (min 1 q)

set_option maxHeartbeats 1600000 in
/-- C5: for every record, `validate` returns a completeness score equal
to `0.5 * (present_required / 6) + 0.3 * (1 - missing_critical / 3) +
0.2 * mean(confidence_numeric)`, clamped to `[0, 1]` and rounded to 3
decimals, with the 6 required and 3 critical fields of the constants. -/
theorem c5_completeness_score_formula (r : ClinicalRecord) :
    (validate r).completeness_score =
      round3 (clamp01 ((1/2) * (specPresentCount r / 6)
        + (3/10) * (1 - specMissingCritical r / 3)
        + (1/5) * (specConfSum r / 6))) := by
  cases h1 : is_field_present r "chief_complaint" <;>
  cases h2 : is_field_present r "hpi" <;>
  cases h3 : is_field_present r "assessment" <;>
  cases h4 : is_field_present r "plan" <;>
  cases h5 : is_field_present r "medications" <;>
  cases h6 : is_field_present r "allergies" <;>
  simp [validate, compute_completeness, specPresentCount, specMissingCritical,
    specConfSum, clamp01, REQUIRED_FIELDS, CRITICAL_FIELDS,
    h1, h2, h3, h4, h5, h6] <;>
  ring_nf

/-! ### Repair loop (`validate_and_repair`, validator.py lines 156-219) -/

/-- A value of the partial update map the extractor returns.  Pydantic's
`ClinicalRecord.model_validate` re-types the merged dict, so update
values carry the field value shapes of the schema; the Extractor
capability contract (spec §6) requires a schema-conformant partial field
map. -/
inductive UpdVal where
  | ustr (s : String)
  | uProblems (l : List Problem)
  | uMedications (l : List Medication)
  | uAllergies (l : List Allergy)
  | uStrList (l : List String)
  deriving DecidableEq, Repr

/-- The `Extractor` protocol (validator.py lines 23-32): one capability
`repair_fields(note_text, current_record, fields_to_repair, locale)`
returning a partial update map (`Except.error` models the call
raising). -/
structure Extractor where
  repair_fields : String → ClinicalRecord → List String → String →
    Except String (List (String × Option UpdVal))

/-- Whether `field in data` for `data = record.model_dump()`: the nine
schema fields. -/
def isRecordField (f : String) : Bool :=
  f == "chief_complaint" || f == "hpi" || f == "assessment" || f == "plan" ||
  f == "medications" || f == "allergies" || f == "red_flags" || f == "follow_up" ||
  f == "patient_summary_plain_language"

/-- `data[field] = value` followed by `model_validate` for one field. -/
def setField (r : ClinicalRecord) (f : String) (v : UpdVal) : ClinicalRecord :=
  match f, v with
  | "chief_complaint", UpdVal.ustr s => { r with chief_complaint := some s }
  | "hpi", UpdVal.ustr s => { r with hpi := some s }
  | "assessment", UpdVal.uProblems l => { r with assessment := l }
  | "plan", UpdVal.ustr s => { r with plan := some s }
  | "medications", UpdVal.uMedications l => { r with medications := l }
  | "allergies", UpdVal.uAllergies l => { r with allergies := l }
  | "red_flags", UpdVal.uStrList l => { r with red_flags := l }
  | "follow_up", UpdVal.ustr s => { r with follow_up := some s }
  | "patient_summary_plain_language", UpdVal.ustr s =>
    { r with patient_summary_plain_language := some s }
  | _, _ => r

/-- The merge loop of `_apply_repair` (validator.py lines 212-219): for
each update entry, overwrite the field when the key is in the record
schema and the value is neither `None` nor the literal string
`"unknown"` (case-insensitive, stripped). -/
def mergeUpdates (r : ClinicalRecord) (updates : List (String × Option UpdVal)) :
    ClinicalRecord :=
  updates.foldl
    (fun acc fv =>
      match fv.2 with
      | none => acc
      | some v =>
        if isRecordField fv.1 then
          match v with
          | UpdVal.ustr s =>
            if pyLower (pyStrip s) = "unknown" then acc else setField acc fv.1 v
          | _ => setField acc fv.1 v
        else acc)
    r

/-- `_apply_repair` (validator.py lines 194-219): a raising
`repair_fields` call is caught and the record returned unrepaired. -/
def apply_repair (record : ClinicalRecord) (note_text : String)
    (fields_to_fix : List String) (extractor : Extractor) (locale : String) :
    ClinicalRecord :=
  match extractor.repair_fields note_text record fields_to_fix locale with
  | Except.error _ => record
  | Except.ok repaired => mergeUpdates record repaired

/-- The `for attempt in range(max_repairs + 1)` loop of
`validate_and_repair` (validator.py lines 164-191).  `iters` counts the
iterations still allowed (entered with `max_repairs + 1`), so the Python
`attempt` index is `max_repairs - (iters - 1)`.  The last two components
are ghost instrumentation counting validation passes and extractor
invocations; the `iters = 0` base case is never reached from
`validate_and_repair`. -/
def repairLoop (extractor : Option Extractor) (note_text locale : String)
    (max_repairs : Nat) : ClinicalRecord → Nat → ClinicalRecord × Flags × Nat × Nat
  | record, 0 => (record, validate record, 0, 0)
  | record, iters + 1 =>
    let flags := validate record
    if COMPLETENESS_THRESHOLD ≤ flags.completeness_score ∧ flags.contradictions = [] then
      (record, flags, 1, 0)
    else
      match extractor with
      | some ex =>
        if max_repairs - iters < max_repairs then
          let fields_to_fix :=
            if ¬ flags.contradictions = [] then flags.missing_fields ++ ["contradictions"]
            else flags.missing_fields
          if fields_to_fix = [] then (record, flags, 1, 0)
          else
            let record' := apply_repair record note_text fields_to_fix ex locale
            let res := repairLoop extractor note_text locale max_repairs record' iters
            (res.1, res.2.1, res.2.2.1 + 1, res.2.2.2 + 1)
        else (record, flags, 1, 0)
      | none =>
        if iters = 0 then (record, flags, 1, 0)
        else
          let res := repairLoop extractor note_text locale max_repairs record iters
          (res.1, res.2.1, res.2.2.1 + 1, res.2.2.2)

/-- `validate_and_repair` (validator.py lines 156-191): runs the loop
for `max_repairs + 1` iterations and returns the final record with the
flags of the last validation pass. -/
def validate_and_repair (record : ClinicalRecord) (note_text : String)
    (extractor : Option Extractor) (locale : String) (max_repairs : Nat) :
    ClinicalRecord × Flags :=
  let res := repairLoop extractor note_text locale max_repairs record (max_repairs + 1)
  (res.1, res.2.1)

theorem repairLoop_flags_validate (extractor : Option Extractor)
    (note_text locale : String) (max_repairs : Nat) (iters : Nat)
    (record : ClinicalRecord) :
    (repairLoop extractor note_text locale max_repairs record iters).2.1 =
      validate (repairLoop extractor note_text locale max_repairs record iters).1 := by
  induction iters generalizing record with
  | zero => rfl
  | succ n ih =>
    rw [repairLoop.eq_def]
    by_cases hg : COMPLETENESS_THRESHOLD ≤ (validate record).completeness_score ∧
        (validate record).contradictions = []
    · simp [hg]
    · simp only [if_neg hg]
      cases extractor with
      | some ex =>
        by_cases ha : max_repairs - n < max_repairs
        · simp only [if_pos ha]
          by_cases hf : (if ¬ (validate record).contradictions = []
              then (validate record).missing_fields ++ ["contradictions"]
              else (validate record).missing_fields) = []
          · simp [hf]
          · simp only [if_neg hf]
            exact ih _
        · simp [ha]
      | none =>
        by_cases hn : n = 0
        · simp [hn]
        · simp only [if_neg hn]
          exact ih _

theorem repairLoop_validate_count (extractor : Option Extractor)
    (note_text locale : String) (max_repairs : Nat) (iters : Nat)
    (record : ClinicalRecord) :
    (repairLoop extractor note_text locale max_repairs record iters).2.2.1 ≤ iters := by
  induction iters generalizing record with
  | zero => exact Nat.le_refl 0
  | succ n ih =>
    rw [repairLoop.eq_def]
    by_cases hg : COMPLETENESS_THRESHOLD ≤ (validate record).completeness_score ∧
        (validate record).contradictions = []
    · simp [hg]
    · simp only [if_neg hg]
      cases extractor with
      | some ex =>
        by_cases ha : max_repairs - n < max_repairs
        · simp only [if_pos ha]
          by_cases hf : (if ¬ (validate record).contradictions = []
              then (validate record).missing_fields ++ ["contradictions"]
              else (validate record).missing_fields) = []
          · simp [hf]
          · simp only [if_neg hf]
            exact Nat.succ_le_succ (ih _)
        · simp [ha]
      | none =>
        by_cases hn : n = 0
        · simp [hn]
        · simp only [if_neg hn]
          exact Nat.succ_le_succ (ih _)

theorem repairLoop_extractor_count (extractor : Option Extractor)
    (note_text locale : String) (max_repairs : Nat) (iters : Nat)
    (record : ClinicalRecord) :
    (repairLoop extractor note_text locale max_repairs record iters).2.2.2 ≤ iters - 1 := by
  induction iters generalizing record with
  | zero => exact Nat.le_refl 0
  | succ n ih =>
    rw [repairLoop.eq_def]
    by_cases hg : COMPLETENESS_THRESHOLD ≤ (validate record).completeness_score ∧
        (validate record).contradictions = []
    · simp [hg]
    · simp only [if_neg hg]
      cases extractor with
      | some ex =>
        by_cases ha : max_repairs - n < max_repairs
        · simp only [if_pos ha]
          by_cases hf : (if ¬ (validate record).contradictions = []
              then (validate record).missing_fields ++ ["contradictions"]
              else (validate record).missing_fields) = []
          · simp [hf]
          · simp only [if_neg hf]
            have hn1 : 1 ≤ n := by omega
            have := ih (apply_repair record note_text
              (if ¬ (validate record).contradictions = []
               then (validate record).missing_fields ++ ["contradictions"]
               else (validate record).missing_fields) ex locale)
            simp only [Nat.succ_sub_one]
            omega
        · simp [ha]
      | none =>
        by_cases hn : n = 0
        · simp [hn]
        · simp only [if_neg hn]
          have := ih record
          simp only [Nat.succ_sub_one]
          omega

/-- C6: with `maxAttempts = 2` the repair loop always terminates (it is
a total function run for 3 bounded iterations), performs at most 3
validation passes and at most 2 extractor invocations — for every
record, raw text and extractor, improving or not — and
`validate_and_repair` returns the final record as-is together with its
final flags (`flags = validate record`), raising no error. -/
theorem c6_repair_loop_bounded (record : ClinicalRecord) (note_text : String)
    (extractor : Option Extractor) :
    (repairLoop extractor note_text "en" MAX_REPAIR_ATTEMPTS record
        (MAX_REPAIR_ATTEMPTS + 1)).2.2.1 ≤ 3 ∧
    (repairLoop extractor note_text "en" MAX_REPAIR_ATTEMPTS record
        (MAX_REPAIR_ATTEMPTS + 1)).2.2.2 ≤ 2 ∧
    validate_and_repair record note_text extractor "en" MAX_REPAIR_ATTEMPTS =
      ((repairLoop extractor note_text "en" MAX_REPAIR_ATTEMPTS record
          (MAX_REPAIR_ATTEMPTS + 1)).1,
        validate (repairLoop extractor note_text "en" MAX_REPAIR_ATTEMPTS record
          (MAX_REPAIR_ATTEMPTS + 1)).1) := by
  refine ⟨repairLoop_validate_count _ _ _ _ _ _, ?_, ?_⟩
  · exact repairLoop_extractor_count _ _ _ _ _ _
  · simp only [validate_and_repair]
    rw [repairLoop_flags_validate]

theorem repairLoop_no_extractor (note_text locale : String) (max_repairs : Nat)
    (record : ClinicalRecord) (iters : Nat) :
    repairLoop none note_text locale max_repairs record (iters + 1) =
      (record, validate record,
        (if COMPLETENESS_THRESHOLD ≤ (validate record).completeness_score ∧
            (validate record).contradictions = [] then 1 else iters + 1), 0) := by
  induction iters with
  | zero =>
    rw [repairLoop.eq_def]
    by_cases hg : COMPLETENESS_THRESHOLD ≤ (validate record).completeness_score ∧
        (validate record).contradictions = []
    · simp [hg]
    · simp [hg]
  | succ n ih =>
    rw [repairLoop.eq_def]
    by_cases hg : COMPLETENESS_THRESHOLD ≤ (validate record).completeness_score ∧
        (validate record).contradictions = []
    · simp [hg]
    · simp only [if_neg hg]
      simp only [ih, if_neg hg]
      simp

unseal Rat.mul Rat.add Rat.sub Rat.inv in
theorem validate_emptyRecord_score_low :
    ¬ COMPLETENESS_THRESHOLD ≤ (validate emptyRecord).completeness_score := by
  decide

/-- C7 (counterexample): with no extractor and a record below the
completeness threshold (the empty record), `validate_and_repair` with
`maxAttempts = 2` performs 3 validation passes, not exactly one — the
loop keeps re-validating the unchanged record instead of exiting after
the first pass. -/
theorem c7_single_pass_counterexample :
    (repairLoop none "note text" "en" MAX_REPAIR_ATTEMPTS emptyRecord
        (MAX_REPAIR_ATTEMPTS + 1)).2.2.1 = 3 ∧
    ¬ (repairLoop none "note text" "en" MAX_REPAIR_ATTEMPTS emptyRecord
        (MAX_REPAIR_ATTEMPTS + 1)).2.2.1 = 1 := by
  have h := repairLoop_no_extractor "note text" "en" MAX_REPAIR_ATTEMPTS emptyRecord 2
  have hg : ¬ (COMPLETENESS_THRESHOLD ≤ (validate emptyRecord).completeness_score ∧
      (validate emptyRecord).contradictions = []) := by
    intro hc
    exact absurd hc.1 validate_emptyRecord_score_low
  rw [show MAX_REPAIR_ATTEMPTS + 1 = 2 + 1 from rfl, h, if_neg hg]
  exact ⟨rfl, by decide⟩

/-- C7 (amended): with no extractor supplied, `validate_and_repair`
returns the input record unchanged together with `validate record` (the
flags of a validation pass of the unchanged input — repair is a no-op
and the extractor is invoked zero times); but it performs exactly one
validation pass only when the record already meets the threshold with no
contradictions, and `max_repairs + 1` (by default 3) identical passes
otherwise. -/
theorem c7_no_extractor_noop (record : ClinicalRecord) (note_text locale : String) :
    validate_and_repair record note_text none locale MAX_REPAIR_ATTEMPTS =
      (record, validate record) ∧
    (repairLoop none note_text locale MAX_REPAIR_ATTEMPTS record
        (MAX_REPAIR_ATTEMPTS + 1)).2.2.2 = 0 ∧
    (repairLoop none note_text locale MAX_REPAIR_ATTEMPTS record
        (MAX_REPAIR_ATTEMPTS + 1)).2.2.1 =
      (if COMPLETENESS_THRESHOLD ≤ (validate record).completeness_score ∧
          (validate record).contradictions = [] then 1 else 3) := by
  have h := repairLoop_no_extractor note_text locale MAX_REPAIR_ATTEMPTS record 2
  rw [show MAX_REPAIR_ATTEMPTS + 1 = 2 + 1 from rfl]
  refine ⟨?_, ?_, ?_⟩
  · simp only [validate_and_repair]
    rw [show MAX_REPAIR_ATTEMPTS + 1 = 2 + 1 from rfl, h]
  · rw [h]
  · rw [h]

end EdgeMed
